import Mathlib

/-!
Verification of the `pool-monitor` HTTP gateway (`src/main.rs`).

The program is a stateless relay: four actix-web handlers that parse path
parameters, issue one or two upstream calls (Solana RPC or the Solscan REST
API), and map the outcome to an HTTP status plus a JSON body.

Shallow embedding: each handler becomes a pure function from its path
parameters and an `Upstream` oracle (recording what the external services
would answer) to an `HttpResponse` together with the list of upstream calls
the handler issues.  Address parsing (`Pubkey::from_str` from solana-sdk,
i.e. base58 decoding plus a 32-byte length check) is embedded executably.
-/

namespace PoolMonitor

/-- JSON values (the fragment of `serde_json::Value` this program produces:
every number it ever builds is an unsigned integer — lamports, slot,
data length).  Object fields keep the insertion order of the `json!`
literals in the source. -/
inductive Json where
  | null : Json
  | bool (b : Bool) : Json
  | num (n : Nat) : Json
  | str (s : String) : Json
  | arr (elems : List Json) : Json
  | obj (fields : List (String × Json)) : Json

/-- An HTTP response as the handlers build it: a status code and a JSON
body (every response of this program is JSON). -/
structure HttpResponse where
  status : Nat
  body : Json

/-- The `json!({"error": msg})` shape shared by every failure branch. -/
def jsonError (msg : String) : Json :=
  Json.obj [("error", Json.str msg)]

/-! ### `Pubkey::from_str` (solana-sdk)

`Pubkey::from_str` rejects strings longer than 44 characters, base58-decodes
the string (error `Invalid` on a character outside the alphabet), and
requires exactly 32 decoded bytes (error `WrongSize` otherwise). -/

/-- The bitcoin base58 alphabet used by the `bs58` crate. -/
def BASE58_ALPHABET : List Char :=
  "123456789ABCDEFGHJKLMNPQRSTUVWXYZabcdefghijkmnopqrstuvwxyz".data

/-- Digit value of one base58 character; `none` for a character outside the
alphabet. -/
def base58Digit (c : Char) : Option Nat :=
  BASE58_ALPHABET.findIdx? (· = c)

/-- Number of leading `1` characters; each contributes one leading zero
byte to the decoded value. -/
def leadingOnes : List Char → Nat
  | '1' :: rest => leadingOnes rest + 1
  | _ => 0

/-- Auxiliary for `natToBytesBE`; the first argument is recursion fuel
(the value shrinks by a factor of 256 at each step, so `n` itself is
always enough fuel and the fuel-exhausted branch is unreachable). -/
def natToBytesBEAux : Nat → Nat → List Nat
  | _, 0 => []
  | 0, _ + 1 => []
  | fuel + 1, n + 1 => natToBytesBEAux fuel ((n + 1) / 256) ++ [(n + 1) % 256]

/-- Big-endian base-256 digits of a natural number (empty for zero), as the
`bs58` crate produces them. -/
def natToBytesBE (n : Nat) : List Nat := natToBytesBEAux n n

/-- Value of a big-endian list of base58 digits. -/
def base58Value (ds : List Nat) : Nat :=
  ds.foldl (fun n d => n * 58 + d) 0

/-- `bs58::decode(s).into_vec()`: `none` on an invalid character, otherwise
the decoded bytes (leading-`1` zero bytes followed by the big-endian
base-256 digits of the value). -/
def bs58Decode (s : String) : Option (List Nat) :=
  match s.data.mapM base58Digit with
  | none => none
  | some ds =>
      some (List.replicate (leadingOnes s.data) 0 ++ natToBytesBE (base58Value ds))

/-- `solana_sdk::pubkey::ParsePubkeyError`. -/
inductive ParsePubkeyError where
  | WrongSize : ParsePubkeyError
  | Invalid : ParsePubkeyError
deriving DecidableEq, Repr

/-- The `Display` text of each parse error (interpolated into the 400
bodies by `format!`). -/
def ParsePubkeyError.message : ParsePubkeyError → String
  | .WrongSize => "String is the wrong size"
  | .Invalid => "Invalid Base58 string"

/-- `MAX_BASE58_LEN` from solana-sdk. -/
def MAX_BASE58_LEN : Nat := 44

/-- A public key: the 32 decoded bytes. -/
abbrev Pubkey := List Nat

/-- `Pubkey::from_str` from solana-sdk: length guard, base58 decode,
32-byte check. -/
def Pubkey.from_str (s : String) : Except ParsePubkeyError Pubkey :=
  if s.length > MAX_BASE58_LEN then .error .WrongSize
  else
    match bs58Decode s with
    | none => .error .Invalid
    | some bytes =>
        if bytes.length = 32 then .ok bytes else .error .WrongSize

/-! ### Upstream services -/

/-- `solana_sdk::account::Account`, restricted to the two fields the
program reads: `lamports` (u64 balance) and `data` (the account's byte
blob; only its length is used). -/
structure Account where
  lamports : Nat
  data : List Nat
deriving DecidableEq, Repr

/-- One upstream call, as observable from outside the process. -/
inductive RpcCall where
  | getSlot : RpcCall
  | getAccount (key : Pubkey) : RpcCall
  | httpGet (url : String) : RpcCall
deriving DecidableEq, Repr

/-- What `reqwest` hands back when the GET itself succeeds: the upstream
HTTP status and the outcome of `response.json::<serde_json::Value>()`
on the body (the error text when the body is not JSON). -/
structure FetchedResponse where
  status : Nat
  jsonBody : Except String Json

/-- The oracle for the external world during one request: the answers of
the Solana RPC node (`get_slot`, `get_account`), of the Solscan REST API
(`httpGet`, where `.error` is a transport failure), and the outcome of
the `spawn_blocking` dispatch itself (`join`, where `.error` is a
`JoinError`).  Errors carry their `Display` text. -/
structure Upstream where
  getSlot : Except String Nat
  getAccount : Pubkey → Except String Account
  httpGet : String → Except String FetchedResponse
  join : Except String Unit

/-- `tokio::task::spawn_blocking(...).await`: the outer layer is the join
outcome, the inner layer the closure's own result. -/
def spawnBlocking {α : Type} (join : Except String Unit) (r : α) :
    Except String α :=
  match join with
  | .ok _ => .ok r
  | .error e => .error e

/-! ### The four handlers -/

/-- `GET /solana/status` (`get_solana_status`). -/
def get_solana_status (u : Upstream) : HttpResponse × List RpcCall :=
  match spawnBlocking u.join u.getSlot with
  | .ok (.ok slot) =>
      (⟨200, Json.obj [("status", Json.str "connected"),
                       ("current_slot", Json.num slot)]⟩, [RpcCall.getSlot])
  | .ok (.error e) =>
      (⟨500, jsonError ("Failed to get slot: " ++ e)⟩, [RpcCall.getSlot])
  | .error e =>
      (⟨500, jsonError ("Task failed: " ++ e)⟩, [RpcCall.getSlot])

/-- `GET /pool/{pool_id}` (`get_pool_info`). -/
def get_pool_info (pool_id : String) (u : Upstream) :
    HttpResponse × List RpcCall :=
  match Pubkey.from_str pool_id with
  | .error e =>
      (⟨400, jsonError ("Invalid pool ID: " ++ e.message)⟩, [])
  | .ok pubkey =>
      match spawnBlocking u.join (u.getAccount pubkey) with
      | .ok (.ok account) =>
          (⟨200, Json.obj [("pool_id", Json.str pool_id),
                           ("lamports", Json.num account.lamports),
                           ("data_size", Json.num account.data.length)]⟩,
           [RpcCall.getAccount pubkey])
      | .ok (.error e) =>
          (⟨500, jsonError ("Failed to get account: " ++ e)⟩,
           [RpcCall.getAccount pubkey])
      | .error e =>
          (⟨500, jsonError ("Task failed: " ++ e)⟩,
           [RpcCall.getAccount pubkey])

/-- The closure handed to `spawn_blocking` in `get_token_pair_info`:
fetch token A's account, and only if that succeeded (`?` operator)
fetch token B's.  Returns the closure's result and the RPC calls it
actually issued. -/
def tokenPairClosure (u : Upstream) (ka kb : Pubkey) :
    Except String (Account × Account) × List RpcCall :=
  match u.getAccount ka with
  | .error e => (.error e, [RpcCall.getAccount ka])
  | .ok a =>
      match u.getAccount kb with
      | .error e => (.error e, [RpcCall.getAccount ka, RpcCall.getAccount kb])
      | .ok b => (.ok (a, b), [RpcCall.getAccount ka, RpcCall.getAccount kb])

/-- `GET /token-pair/{token_a}/{token_b}` (`get_token_pair_info`). -/
def get_token_pair_info (token_a token_b : String) (u : Upstream) :
    HttpResponse × List RpcCall :=
  match Pubkey.from_str token_a with
  | .error e =>
      (⟨400, jsonError ("Invalid token A address: " ++ e.message)⟩, [])
  | .ok token_a_pubkey =>
      match Pubkey.from_str token_b with
      | .error e =>
          (⟨400, jsonError ("Invalid token B address: " ++ e.message)⟩, [])
      | .ok token_b_pubkey =>
          let step := tokenPairClosure u token_a_pubkey token_b_pubkey
          match spawnBlocking u.join step.1 with
          | .ok (.ok (token_a_info, token_b_info)) =>
              (⟨200, Json.obj [
                  ("token_a", Json.obj [
                      ("address", Json.str token_a),
                      ("data_size", Json.num token_a_info.data.length)]),
                  ("token_b", Json.obj [
                      ("address", Json.str token_b),
                      ("data_size", Json.num token_b_info.data.length)])]⟩,
               step.2)
          | .ok (.error e) =>
              (⟨500, jsonError ("Failed to get token info: " ++ e)⟩, step.2)
          | .error e =>
              (⟨500, jsonError ("Task failed: " ++ e)⟩, step.2)

/-- The URL `format!` builds in `get_token_transactions`. -/
def solscanUrl (token : String) : String :=
  "https://public-api.solscan.io/token/transfers?token=" ++ token ++ "&limit=50"

/-- `GET /transactions/{token}` (`get_token_transactions`). -/
def get_token_transactions (token : String) (u : Upstream) :
    HttpResponse × List RpcCall :=
  let url := solscanUrl token
  match u.httpGet url with
  | .error e =>
      (⟨500, jsonError ("Failed to fetch from Solscan: " ++ e)⟩,
       [RpcCall.httpGet url])
  | .ok response =>
      match response.jsonBody with
      | .ok data => (⟨200, data⟩, [RpcCall.httpGet url])
      | .error e =>
          (⟨500, jsonError ("Failed to parse response: " ++ e)⟩,
           [RpcCall.httpGet url])

/-! ### Concrete stub upstreams (for witnesses) -/

/-- A fully healthy upstream: slot 12345, every account exists, Solscan
answers a JSON array. -/
def stubUpstream : Upstream where
  getSlot := .ok 12345
  getAccount := fun _ => .ok ⟨100, [0, 1, 2]⟩
  httpGet := fun _ => .ok ⟨200, .ok (Json.arr [Json.num 1, Json.num 2])⟩
  join := .ok ()

/-- The same observable answers as `stubUpstream`, written differently. -/
def stubUpstreamTwin : Upstream where
  getSlot := .ok (12000 + 345)
  getAccount := fun _ => .ok ⟨99 + 1, [0, 1, 2]⟩
  httpGet := fun _ => .ok ⟨100 + 100, .ok (Json.arr [Json.num 1, Json.num 2])⟩
  join := .ok ()

/-- An upstream whose remote calls all fail (the dispatch itself still
succeeds). -/
def failingUpstream : Upstream where
  getSlot := .error "connection refused"
  getAccount := fun _ => .error "account fetch refused"
  httpGet := fun _ => .error "dns failure"
  join := .ok ()

/-- An upstream whose `spawn_blocking` dispatch fails with a `JoinError`. -/
def joinFailUpstream : Upstream where
  getSlot := .ok 12345
  getAccount := fun _ => .ok ⟨100, [0, 1, 2]⟩
  httpGet := fun _ => .ok ⟨200, .ok (Json.arr [])⟩
  join := .error "task cancelled"

/-- An upstream that connects but answers a body that is not JSON. -/
def badBodyUpstream : Upstream where
  getSlot := .ok 12345
  getAccount := fun _ => .ok ⟨100, [0, 1, 2]⟩
  httpGet := fun _ => .ok ⟨200, .error "expected value at line 1 column 1"⟩
  join := .ok ()

/-- An upstream that answers HTTP 404 yet with a JSON body. -/
def notFoundUpstream : Upstream where
  getSlot := .ok 12345
  getAccount := fun _ => .ok ⟨100, [0, 1, 2]⟩
  httpGet := fun _ => .ok ⟨404, .ok (Json.obj [("message", Json.str "not found")])⟩
  join := .ok ()

/-- The system-program address: 32 `1` characters, decoding to 32 zero
bytes. -/
def zeroAddr : String := "11111111111111111111111111111111"

end PoolMonitor

namespace PoolMonitor

/-- `zeroAddr` parses to the 32-zero-byte key. -/
theorem zeroAddr_parses : Pubkey.from_str zeroAddr = .ok (List.replicate 32 0) := by
  rfl

/-- C1: for every syntactically invalid address string, the single-account
lookup (`/pool/...`) and the dual-account lookup (`/token-pair/...`) return
HTTP 400 with an error-object body and issue no upstream RPC call at all
(the recorded call list is empty), whichever position the invalid address
occupies. -/
theorem invalid_address_returns_400_no_rpc
    (s other : String) (e : ParsePubkeyError) (u : Upstream)
    (h : Pubkey.from_str s = .error e) :
    get_pool_info s u =
      (⟨400, jsonError ("Invalid pool ID: " ++ e.message)⟩, []) ∧
    get_token_pair_info s other u =
      (⟨400, jsonError ("Invalid token A address: " ++ e.message)⟩, []) ∧
    (∀ k, Pubkey.from_str other = .ok k →
       get_token_pair_info other s u =
         (⟨400, jsonError ("Invalid token B address: " ++ e.message)⟩, [])) := by
  refine ⟨?_, ?_, ?_⟩
  · simp [get_pool_info, h]
  · simp [get_token_pair_info, h]
  · intro k hk
    simp [get_token_pair_info, hk, h]

theorem invalid_address_returns_400_no_rpc_witness :
    Pubkey.from_str "!!" = .error .Invalid ∧
    get_pool_info "!!" stubUpstream =
      (⟨400, jsonError "Invalid pool ID: Invalid Base58 string"⟩, []) ∧
    get_token_pair_info "!!" zeroAddr stubUpstream =
      (⟨400, jsonError "Invalid token A address: Invalid Base58 string"⟩, []) ∧
    get_token_pair_info zeroAddr "!!" stubUpstream =
      (⟨400, jsonError "Invalid token B address: Invalid Base58 string"⟩, []) := by
  have h := invalid_address_returns_400_no_rpc "!!" zeroAddr .Invalid stubUpstream rfl
  exact ⟨rfl, h.1, h.2.1, h.2.2 (List.replicate 32 0) zeroAddr_parses⟩

/-- C2: in the dual-account lookup, when both addresses parse and the
dispatch succeeds but either account fetch fails (the first one, or the
first succeeds and the second fails), the response is HTTP 500 with a
single error-object body — no partial result carrying the other
account's data. -/
theorem token_pair_no_partial_success
    (a b : String) (ka kb : Pubkey) (u : Upstream) (e : String)
    (ha : Pubkey.from_str a = .ok ka) (hb : Pubkey.from_str b = .ok kb)
    (hjoin : u.join = .ok ())
    (hfail : u.getAccount ka = .error e ∨
             (∃ acc, u.getAccount ka = .ok acc ∧ u.getAccount kb = .error e)) :
    (get_token_pair_info a b u).1 =
      ⟨500, jsonError ("Failed to get token info: " ++ e)⟩ := by
  rcases hfail with hfa | ⟨acc, hok, hfb⟩
  · simp [get_token_pair_info, ha, hb, hjoin, spawnBlocking, tokenPairClosure, hfa]
  · simp [get_token_pair_info, ha, hb, hjoin, spawnBlocking, tokenPairClosure, hok, hfb]

theorem token_pair_no_partial_success_witness :
    failingUpstream.join = .ok () ∧
    failingUpstream.getAccount (List.replicate 32 0) = .error "account fetch refused" ∧
    (get_token_pair_info zeroAddr zeroAddr failingUpstream).1 =
      ⟨500, jsonError "Failed to get token info: account fetch refused"⟩ := by
  refine ⟨rfl, rfl, ?_⟩
  exact token_pair_no_partial_success zeroAddr zeroAddr
    (List.replicate 32 0) (List.replicate 32 0) failingUpstream
    "account fetch refused" zeroAddr_parses zeroAddr_parses rfl (Or.inl rfl)

/-- C3: the dual-account lookup validates address A first: whenever the
first address string is invalid, the handler answers the token-A 400
error with an empty upstream-call list, for every second address string
(valid or not) — so the second address is never consulted. -/
theorem token_pair_validates_a_first
    (a b : String) (e : ParsePubkeyError) (u : Upstream)
    (h : Pubkey.from_str a = .error e) :
    get_token_pair_info a b u =
      (⟨400, jsonError ("Invalid token A address: " ++ e.message)⟩, []) := by
  simp [get_token_pair_info, h]

theorem token_pair_validates_a_first_witness :
    Pubkey.from_str "!!" = .error .Invalid ∧
    get_token_pair_info "!!" "0" stubUpstream =
      (⟨400, jsonError "Invalid token A address: Invalid Base58 string"⟩, []) :=
  ⟨rfl, token_pair_validates_a_first "!!" "0" .Invalid stubUpstream rfl⟩

/-- C4: for the transaction-history endpoint, whenever the upstream GET
succeeds and its body parses as JSON, the response is HTTP 200 with body
equal to that upstream JSON value unmodified; whenever the body does not
parse, the response is HTTP 500 with a parse-failure error message. -/
theorem transactions_passthrough
    (token : String) (u : Upstream) (r : FetchedResponse)
    (h : u.httpGet (solscanUrl token) = .ok r) :
    (∀ v, r.jsonBody = .ok v →
       get_token_transactions token u =
         (⟨200, v⟩, [RpcCall.httpGet (solscanUrl token)])) ∧
    (∀ e, r.jsonBody = .error e →
       get_token_transactions token u =
         (⟨500, jsonError ("Failed to parse response: " ++ e)⟩,
          [RpcCall.httpGet (solscanUrl token)])) := by
  constructor
  · intro v hv
    simp [get_token_transactions, h, hv]
  · intro e he
    simp [get_token_transactions, h, he]

theorem transactions_passthrough_witness :
    stubUpstream.httpGet (solscanUrl "abc") =
      .ok ⟨200, .ok (Json.arr [Json.num 1, Json.num 2])⟩ ∧
    get_token_transactions "abc" stubUpstream =
      (⟨200, Json.arr [Json.num 1, Json.num 2]⟩,
       [RpcCall.httpGet (solscanUrl "abc")]) ∧
    get_token_transactions "abc" badBodyUpstream =
      (⟨500, jsonError "Failed to parse response: expected value at line 1 column 1"⟩,
       [RpcCall.httpGet (solscanUrl "abc")]) := by
  refine ⟨rfl, ?_, ?_⟩
  · exact (transactions_passthrough "abc" stubUpstream
      ⟨200, .ok (Json.arr [Json.num 1, Json.num 2])⟩ rfl).1
      (Json.arr [Json.num 1, Json.num 2]) rfl
  · exact (transactions_passthrough "abc" badBodyUpstream
      ⟨200, .error "expected value at line 1 column 1"⟩ rfl).2
      "expected value at line 1 column 1" rfl

/-- C5: for the status endpoint, when the upstream get-slot call succeeds
with slot `s`, the response is HTTP 200 with body exactly the object
with fields `status = "connected"` and `current_slot = s` (in that
order); when the upstream call fails, the response is HTTP 500 with an
error-object body. -/
theorem status_endpoint_spec (u : Upstream) :
    (∀ slot, u.join = .ok () → u.getSlot = .ok slot →
       get_solana_status u =
         (⟨200, Json.obj [("status", Json.str "connected"),
                          ("current_slot", Json.num slot)]⟩,
          [RpcCall.getSlot])) ∧
    (∀ e, u.join = .ok () → u.getSlot = .error e →
       get_solana_status u =
         (⟨500, jsonError ("Failed to get slot: " ++ e)⟩, [RpcCall.getSlot])) := by
  constructor
  · intro slot hj hs
    simp [get_solana_status, spawnBlocking, hj, hs]
  · intro e hj hs
    simp [get_solana_status, spawnBlocking, hj, hs]

theorem status_endpoint_spec_witness :
    stubUpstream.getSlot = .ok 12345 ∧
    get_solana_status stubUpstream =
      (⟨200, Json.obj [("status", Json.str "connected"),
                       ("current_slot", Json.num 12345)]⟩, [RpcCall.getSlot]) ∧
    get_solana_status failingUpstream =
      (⟨500, jsonError "Failed to get slot: connection refused"⟩,
       [RpcCall.getSlot]) := by
  refine ⟨rfl, ?_, ?_⟩
  · exact (status_endpoint_spec stubUpstream).1 12345 rfl rfl
  · exact (status_endpoint_spec failingUpstream).2 "connection refused" rfl rfl

/-- C6: full behaviour of the single-account lookup: parse failure gives
400 with the "Invalid pool ID: <parse error>" message; parse success
followed by a successful fetch gives 200 with the pool id, the
account's lamports and its data length; parse success followed by a
failed fetch gives 500 with an error-object body. -/
theorem pool_info_spec (pool_id : String) (u : Upstream) :
    (∀ e, Pubkey.from_str pool_id = .error e →
       get_pool_info pool_id u =
         (⟨400, jsonError ("Invalid pool ID: " ++ e.message)⟩, [])) ∧
    (∀ k, Pubkey.from_str pool_id = .ok k → u.join = .ok () →
       (∀ account, u.getAccount k = .ok account →
          get_pool_info pool_id u =
            (⟨200, Json.obj [("pool_id", Json.str pool_id),
                             ("lamports", Json.num account.lamports),
                             ("data_size", Json.num account.data.length)]⟩,
             [RpcCall.getAccount k])) ∧
       (∀ e, u.getAccount k = .error e →
          get_pool_info pool_id u =
            (⟨500, jsonError ("Failed to get account: " ++ e)⟩,
             [RpcCall.getAccount k]))) := by
  constructor
  · intro e he
    simp [get_pool_info, he]
  · intro k hk hj
    constructor
    · intro account hacc
      simp [get_pool_info, hk, hj, spawnBlocking, hacc]
    · intro e he
      simp [get_pool_info, hk, hj, spawnBlocking, he]

theorem pool_info_spec_witness :
    get_pool_info "!!" stubUpstream =
      (⟨400, jsonError "Invalid pool ID: Invalid Base58 string"⟩, []) ∧
    get_pool_info zeroAddr stubUpstream =
      (⟨200, Json.obj [("pool_id", Json.str zeroAddr),
                       ("lamports", Json.num 100),
                       ("data_size", Json.num 3)]⟩,
       [RpcCall.getAccount (List.replicate 32 0)]) ∧
    get_pool_info zeroAddr failingUpstream =
      (⟨500, jsonError "Failed to get account: account fetch refused"⟩,
       [RpcCall.getAccount (List.replicate 32 0)]) := by
  refine ⟨?_, ?_, ?_⟩
  · exact (pool_info_spec "!!" stubUpstream).1 .Invalid rfl
  · exact ((pool_info_spec zeroAddr stubUpstream).2
      (List.replicate 32 0) zeroAddr_parses rfl).1 ⟨100, [0, 1, 2]⟩ rfl
  · exact ((pool_info_spec zeroAddr failingUpstream).2
      (List.replicate 32 0) zeroAddr_parses rfl).2 "account fetch refused" rfl

/-- C7: the transaction-history endpoint performs, for every token string
(validated or not — no parse is attempted), exactly one HTTP GET, to the
fixed Solscan endpoint with the token interpolated verbatim and the
fixed limit 50. -/
theorem transactions_single_verbatim_get (token : String) (u : Upstream) :
    (get_token_transactions token u).2 =
      [RpcCall.httpGet
        ("https://public-api.solscan.io/token/transfers?token=" ++ token
          ++ "&limit=50")] := by
  unfold get_token_transactions solscanUrl
  rcases h : u.httpGet ("https://public-api.solscan.io/token/transfers?token=" ++ token ++ "&limit=50") with e | r
  · simp [h]
  · rcases hr : r.jsonBody with e | v <;> simp [h, hr]

/-- Two strings with distinct 11-character heads differ, whatever is
appended after the heads. -/
theorem append_ne_of_head (p q : String) (hp hq : List Char)
    (h1 : ∀ e : String, (p ++ e).data.take 11 = hp)
    (h2 : ∀ e : String, (q ++ e).data.take 11 = hq)
    (hne : hp ≠ hq) (e1 e2 : String) : p ++ e1 ≠ q ++ e2 :=
  fun heq => hne (by rw [← h1 e1, ← h2 e2, heq])

/-- C8: in every handler that dispatches its blocking upstream call, a
failure of the dispatch itself yields HTTP 500 with an error message
"Task failed: <cause>" — a message starting with "Task failed" and
distinct from every upstream-failure message of those handlers. -/
theorem task_failure_distinct_500 (u : Upstream) (e : String)
    (h : u.join = .error e) :
    (get_solana_status u).1 = ⟨500, jsonError ("Task failed: " ++ e)⟩ ∧
    (∀ pid k, Pubkey.from_str pid = .ok k →
       (get_pool_info pid u).1 = ⟨500, jsonError ("Task failed: " ++ e)⟩) ∧
    (∀ a b ka kb, Pubkey.from_str a = .ok ka → Pubkey.from_str b = .ok kb →
       (get_token_pair_info a b u).1 = ⟨500, jsonError ("Task failed: " ++ e)⟩) ∧
    ("Task failed: " ++ e).data.take 11 = "Task failed".data ∧
    (∀ e2, "Task failed: " ++ e ≠ "Failed to get slot: " ++ e2 ∧
           "Task failed: " ++ e ≠ "Failed to get account: " ++ e2 ∧
           "Task failed: " ++ e ≠ "Failed to get token info: " ++ e2) := by
  refine ⟨?_, ?_, ?_, rfl, ?_⟩
  · simp [get_solana_status, spawnBlocking, h]
  · intro pid k hk
    simp [get_pool_info, hk, spawnBlocking, h]
  · intro a b ka kb ha hb
    simp [get_token_pair_info, ha, hb, spawnBlocking, h]
  · intro e2
    refine ⟨?_, ?_, ?_⟩
    · exact append_ne_of_head "Task failed: " "Failed to get slot: "
        "Task failed".data "Failed to g".data (fun _ => rfl) (fun _ => rfl)
        (by decide) e e2
    · exact append_ne_of_head "Task failed: " "Failed to get account: "
        "Task failed".data "Failed to g".data (fun _ => rfl) (fun _ => rfl)
        (by decide) e e2
    · exact append_ne_of_head "Task failed: " "Failed to get token info: "
        "Task failed".data "Failed to g".data (fun _ => rfl) (fun _ => rfl)
        (by decide) e e2

theorem task_failure_distinct_500_witness :
    joinFailUpstream.join = .error "task cancelled" ∧
    (get_solana_status joinFailUpstream).1 =
      ⟨500, jsonError "Task failed: task cancelled"⟩ ∧
    (get_pool_info zeroAddr joinFailUpstream).1 =
      ⟨500, jsonError "Task failed: task cancelled"⟩ ∧
    (get_token_pair_info zeroAddr zeroAddr joinFailUpstream).1 =
      ⟨500, jsonError "Task failed: task cancelled"⟩ := by
  have h := task_failure_distinct_500 joinFailUpstream "task cancelled" rfl
  exact ⟨rfl, h.1,
    h.2.1 zeroAddr (List.replicate 32 0) zeroAddr_parses,
    h.2.2.1 zeroAddr zeroAddr (List.replicate 32 0) (List.replicate 32 0)
      zeroAddr_parses zeroAddr_parses⟩

/-- C9: every handler is a deterministic function of its path parameters
and the upstream answers: two upstreams giving identical answers produce
identical responses on every endpoint (there is no other state). -/
theorem handlers_deterministic (u1 u2 : Upstream)
    (hslot : u1.getSlot = u2.getSlot)
    (hacct : ∀ k, u1.getAccount k = u2.getAccount k)
    (hhttp : ∀ url, u1.httpGet url = u2.httpGet url)
    (hjoin : u1.join = u2.join) :
    get_solana_status u1 = get_solana_status u2 ∧
    (∀ pid, get_pool_info pid u1 = get_pool_info pid u2) ∧
    (∀ a b, get_token_pair_info a b u1 = get_token_pair_info a b u2) ∧
    (∀ token, get_token_transactions token u1 = get_token_transactions token u2) := by
  obtain ⟨s1, a1, g1, j1⟩ := u1
  obtain ⟨s2, a2, g2, j2⟩ := u2
  dsimp only at hslot hacct hhttp hjoin
  subst hslot hjoin
  have ha : a1 = a2 := funext hacct
  have hg : g1 = g2 := funext hhttp
  subst ha hg
  exact ⟨rfl, fun _ => rfl, fun _ _ => rfl, fun _ => rfl⟩

theorem handlers_deterministic_witness :
    get_solana_status stubUpstream = get_solana_status stubUpstreamTwin ∧
    (∀ pid, get_pool_info pid stubUpstream = get_pool_info pid stubUpstreamTwin) ∧
    (∀ a b, get_token_pair_info a b stubUpstream = get_token_pair_info a b stubUpstreamTwin) ∧
    (∀ token, get_token_transactions token stubUpstream = get_token_transactions token stubUpstreamTwin) :=
  handlers_deterministic stubUpstream stubUpstreamTwin rfl
    (fun _ => rfl) (fun _ => rfl) rfl

/-- C10: the transaction-history endpoint ignores the upstream HTTP status
code: for every status (404, 500, ...), if the connection succeeded and
the body parses as JSON, the handler answers 200 with that JSON. -/
theorem transactions_ignore_upstream_status (token : String) (u : Upstream)
    (status : Nat) (v : Json)
    (h : u.httpGet (solscanUrl token) = .ok ⟨status, .ok v⟩) :
    get_token_transactions token u =
      (⟨200, v⟩, [RpcCall.httpGet (solscanUrl token)]) := by
  simp [get_token_transactions, h]

theorem transactions_ignore_upstream_status_witness :
    notFoundUpstream.httpGet (solscanUrl "abc") =
      .ok ⟨404, .ok (Json.obj [("message", Json.str "not found")])⟩ ∧
    get_token_transactions "abc" notFoundUpstream =
      (⟨200, Json.obj [("message", Json.str "not found")]⟩,
       [RpcCall.httpGet (solscanUrl "abc")]) :=
  ⟨rfl, transactions_ignore_upstream_status "abc" notFoundUpstream 404
    (Json.obj [("message", Json.str "not found")]) rfl⟩

end PoolMonitor
